import Mathlib

/-!
Shallow embedding of `src/speech.py`.

The program is a single function `speak(text, lang="en", tld="")` that
1. constructs a gTTS synthesis request `gTTS(text=text, lang=lang, tld=tld)`,
2. saves the synthesized audio with `tts.save("__text_output.mp3")`,
3. plays it with `os.system("ffplay -v 0 -nodisp -autoexit __text_output.mp3")`,
and a `__main__` block `speak(input(), "fr", "fr")`.

The gTTS library and the operating system are external to the repository, so
they are modelled as an environment `Env` of opaque oracles: `validate` is the
argument validation the gTTS constructor performs (it raises on bad input,
e.g. an unsupported language code, and otherwise just stores the arguments),
`fetch` is the network round trip performed by `tts.save` that yields the raw
audio bytes, and `system` is the exit status `os.system` returns for a shell
command.  The local file system is an association list from paths to byte
lists, and each run produces an ordered event trace recording the file write
and the spawned player process, so that ordering and hyperproperty claims can
be stated.
-/

/-- The fixed output path hard-coded on lines 6 and 7 of `speech.py`. -/
def OUTPUT_FILE : String := "__text_output.mp3"

/-- The exact shell command passed to `os.system` on line 7 of `speech.py`.
It is a string literal: no argument of `speak` is interpolated into it. -/
def FFPLAY_CMD : String := "ffplay -v 0 -nodisp -autoexit __text_output.mp3"

/-- A byte of an audio file (a Python `bytes` element, `0 ≤ b < 256`;
the claims never depend on the bound, so plain `Nat` is used). -/
abbrev Byte := Nat

/-- The local file system: an association list from paths to file contents. -/
abbrev FileSys := List (String × List Byte)

/-- Read a file: the content at the first matching path, if any. -/
def fsRead (fs : FileSys) (p : String) : Option (List Byte) :=
  match fs with
  | [] => none
  | (q, d) :: rest => if q = p then some d else fsRead rest p

/-- Write a file with overwrite semantics (Python `open(path, "wb")`):
the old content at `p`, if any, is replaced, never appended to. -/
def fsWrite (fs : FileSys) (p : String) (d : List Byte) : FileSys :=
  match fs with
  | [] => [(p, d)]
  | (q, e) :: rest => if q = p then (p, d) :: rest else (q, e) :: fsWrite rest p d

/-- Observable events of one run, in order of occurrence. -/
inductive Event where
  | fileWrite : String → List Byte → Event
  | procSpawn : String → Nat → Event
deriving DecidableEq, Repr

/-- Is the event a process spawn? -/
def Event.isSpawn : Event → Bool
  | .procSpawn _ _ => true
  | .fileWrite _ _ => false

/-- A constructed gTTS request: the Python `gTTS` object stores exactly the
`text`, `lang` and `tld` keyword arguments it was given. -/
structure GTTSReq where
  text : String
  lang : String
  tld : String
deriving DecidableEq, Repr

/-- The external world: the gTTS library internals and the operating system,
opaque to this repository. -/
structure Env where
  /-- Validation done by the `gTTS` constructor: `some err` means the
  constructor raises (e.g. `ValueError` for an unsupported language code,
  `AssertionError` for empty text); `none` means it succeeds. -/
  validate : String → String → String → Option String
  /-- The network round trip of `tts.save`: either the audio bytes returned
  by the remote text-to-speech service, or a raised error. -/
  fetch : GTTSReq → Except String (List Byte)
  /-- The exit status `os.system` returns for a given shell command. -/
  system : String → Nat

/-- `gTTS(text=text, lang=lang, tld=tld)` (line 5 of `speech.py`): either
raises during validation or returns a request object holding the arguments. -/
def gTTS (env : Env) (text lang tld : String) : Except String GTTSReq :=
  match env.validate text lang tld with
  | some err => Except.error err
  | none => Except.ok (GTTSReq.mk text lang tld)

/-- `tts.save(path)` (line 6 of `speech.py`): fetch the audio from the remote
service and write it to `path`, or propagate the raised error.  Returns the
updated file system and the trace of events it produced. -/
def gttsSave (env : Env) (tts : GTTSReq) (path : String) (fs : FileSys) :
    Except String (FileSys × List Event) :=
  match env.fetch tts with
  | Except.error e => Except.error e
  | Except.ok audio => Except.ok (fsWrite fs path audio, [Event.fileWrite path audio])

/-- `speak(text, lang="en", tld="")` (lines 4-7 of `speech.py`).  Returns the
Python result (`Except.error e` models an uncaught exception `e`; `Except.ok ()`
models the normal return value `None` — the status of `os.system` is discarded),
the final file system, and the ordered event trace of the run. -/
def speak (env : Env) (fs : FileSys) (text : String)
    (lang : String := "en") (tld : String := "") :
    Except String Unit × FileSys × List Event :=
  match gTTS env text lang tld with
  | Except.error e => (Except.error e, fs, [])
  | Except.ok tts =>
    match gttsSave env tts OUTPUT_FILE fs with
    | Except.error e => (Except.error e, fs, [])
    | Except.ok (fs2, tr) =>
      (Except.ok (), fs2, tr ++ [Event.procSpawn FFPLAY_CMD (env.system FFPLAY_CMD)])

/-- The `__main__` block (lines 9-10 of `speech.py`): `speak(input(), "fr", "fr")`.
`stdin` is the list of pending input lines; `input()` reads exactly one line
(raising `EOFError` when there is none).  The fourth component is the stdin
left unread. -/
def pythonMain (env : Env) (stdin : List String) (fs : FileSys) :
    Except String Unit × FileSys × List Event × List String :=
  match stdin with
  | [] => (Except.error "EOFError", fs, [], [])
  | line :: rest =>
    let r := speak env fs line "fr" "fr"
    (r.1, r.2.1, r.2.2, rest)

/-- The process exit code of a direct run: Python exits `0` on a normal return
and `1` on an uncaught exception (the ignored `os.system` status plays no part). -/
def programExitCode (env : Env) (stdin : List String) (fs : FileSys) : Nat :=
  match (pythonMain env stdin fs).1 with
  | Except.ok _ => 0
  | Except.error _ => 1

/-- `sub` occurs as a contiguous substring of `s`. -/
def strContains (s sub : String) : Prop := ∃ a b, s = a ++ (sub ++ b)

/-- An environment in which every step succeeds: validation passes, the
service returns the bytes `[7, 3, 9]`, and the player exits with status 0. -/
def envOk : Env :=
  Env.mk (fun _ _ _ => none) (fun _ => Except.ok [7, 3, 9]) (fun _ => 0)

/-- An environment in which synthesis succeeds but the player executable is
missing: `os.system` returns the shell status `32512` (`127 << 8`). -/
def envNoPlayer : Env :=
  Env.mk (fun _ _ _ => none) (fun _ => Except.ok [7, 3, 9]) (fun _ => 32512)

/-- An environment in which the gTTS constructor raises for every input,
as it does for an unsupported language code. -/
def envBadLang : Env :=
  Env.mk (fun _ _ _ => some "ValueError: Language not supported: xx")
    (fun _ => Except.ok [7, 3, 9]) (fun _ => 0)

/-- Reading back a freshly written file yields exactly the written bytes. -/
theorem fsRead_fsWrite (fs : FileSys) (p : String) (d : List Byte) :
    fsRead (fsWrite fs p d) p = some d := by
  induction fs with
  | nil => simp [fsWrite, fsRead]
  | cons hd tl ih =>
    obtain ⟨q, e⟩ := hd
    by_cases h : q = p
    · simp [fsWrite, fsRead, h]
    · simp [fsWrite, fsRead, h, ih]

/-- The ffplay command decomposes into the player name, the quiet flag
`-v 0`, the no-video flag `-nodisp`, the auto-exit flag `-autoexit` and the
fixed output path. -/
theorem ffplay_cmd_flags :
    strContains FFPLAY_CMD "-v 0" ∧ strContains FFPLAY_CMD "-nodisp" ∧
    strContains FFPLAY_CMD "-autoexit" ∧ strContains FFPLAY_CMD OUTPUT_FILE := by
  refine ⟨⟨"ffplay ", " -nodisp -autoexit __text_output.mp3", ?_⟩,
    ⟨"ffplay -v 0 ", " -autoexit __text_output.mp3", ?_⟩,
    ⟨"ffplay -v 0 -nodisp ", " __text_output.mp3", ?_⟩,
    ⟨"ffplay -v 0 -nodisp -autoexit ", "", ?_⟩⟩ <;> rfl

/-- C1: for every non-empty input text and valid language/domain pair (modelled
as: the gTTS constructor validates and the service returns audio bytes, which
are non-empty), `speak` writes exactly those bytes to the fixed path
`"__text_output.mp3"`, and in the event trace the file write occurs strictly
before the player process is invoked. -/
theorem C1_writes_nonempty_file_before_player (env : Env) (fs : FileSys)
    (text lang tld : String) (audio : List Byte)
    (hv : env.validate text lang tld = none)
    (hf : env.fetch (GTTSReq.mk text lang tld) = Except.ok audio)
    (hne : audio ≠ []) :
    fsRead (speak env fs text lang tld).2.1 OUTPUT_FILE = some audio ∧
    audio ≠ [] ∧
    (speak env fs text lang tld).2.2 =
      [Event.fileWrite OUTPUT_FILE audio,
       Event.procSpawn FFPLAY_CMD (env.system FFPLAY_CMD)] := by
  refine ⟨?_, hne, ?_⟩ <;> simp [speak, gTTS, gttsSave, hv, hf, fsRead_fsWrite]

/-- Closed instance of C1 at a concrete successful environment. -/
theorem C1_witness :
    fsRead (speak envOk [] "hello" "en" "").2.1 OUTPUT_FILE = some [7, 3, 9] ∧
    ([7, 3, 9] : List Byte) ≠ [] ∧
    (speak envOk [] "hello" "en" "").2.2 =
      [Event.fileWrite OUTPUT_FILE [7, 3, 9],
       Event.procSpawn FFPLAY_CMD (envOk.system FFPLAY_CMD)] :=
  C1_writes_nonempty_file_before_player envOk [] "hello" "en" "" [7, 3, 9]
    rfl rfl (by decide)

/-- C2: in every run of `speak`, any player-spawn event in the trace is
strictly preceded by the write of the fixed output file, and at the moment of
(and after) the spawn the file holds exactly the fully written audio bytes. -/
theorem C2_player_only_after_write (env : Env) (fs : FileSys)
    (text lang tld : String) (j : Nat) (cmd : String) (st : Nat)
    (hj : (speak env fs text lang tld).2.2.get? j = some (Event.procSpawn cmd st)) :
    ∃ i data, i < j ∧
      (speak env fs text lang tld).2.2.get? i = some (Event.fileWrite OUTPUT_FILE data) ∧
      fsRead (speak env fs text lang tld).2.1 OUTPUT_FILE = some data := by
  cases hv : env.validate text lang tld with
  | some err => simp [speak, gTTS, hv] at hj
  | none =>
    cases hf : env.fetch (GTTSReq.mk text lang tld) with
    | error e => simp [speak, gTTS, gttsSave, hv, hf] at hj
    | ok audio =>
      have htr : (speak env fs text lang tld).2.2 =
          [Event.fileWrite OUTPUT_FILE audio,
           Event.procSpawn FFPLAY_CMD (env.system FFPLAY_CMD)] := by
        simp [speak, gTTS, gttsSave, hv, hf]
      have hfs : fsRead (speak env fs text lang tld).2.1 OUTPUT_FILE = some audio := by
        simp [speak, gTTS, gttsSave, hv, hf, fsRead_fsWrite]
      rw [htr] at hj
      refine ⟨0, audio, ?_, ?_, hfs⟩
      · rcases j with _ | j
        · simp [List.get?] at hj
        · omega
      · rw [htr]; rfl

/-- Closed instance of C2: in a concrete successful run the spawn sits at
index 1 and the write of the output file sits strictly before it. -/
theorem C2_witness :
    ∃ i data, i < 1 ∧
      (speak envOk [] "hi" "en" "").2.2.get? i = some (Event.fileWrite OUTPUT_FILE data) ∧
      fsRead (speak envOk [] "hi" "en" "").2.1 OUTPUT_FILE = some data :=
  C2_player_only_after_write envOk [] "hi" "en" "" 1 FFPLAY_CMD 0 (by rfl)

/-- C3: every invocation of `speak` that returns normally spawned the player
exactly once, with the fixed command carrying the quiet flag `-v 0`, the
no-video flag `-nodisp`, the auto-exit flag `-autoexit` and the fixed output
path; the recorded status is the player's exit status, i.e. `os.system` had
returned (the call blocked until the player exited) before `speak` returned. -/
theorem C3_player_exactly_once_blocking (env : Env) (fs : FileSys)
    (text lang tld : String)
    (hok : (speak env fs text lang tld).1 = Except.ok ()) :
    (speak env fs text lang tld).2.2.filter Event.isSpawn =
      [Event.procSpawn FFPLAY_CMD (env.system FFPLAY_CMD)] ∧
    strContains FFPLAY_CMD "-v 0" ∧ strContains FFPLAY_CMD "-nodisp" ∧
    strContains FFPLAY_CMD "-autoexit" ∧ strContains FFPLAY_CMD OUTPUT_FILE := by
  refine ⟨?_, ffplay_cmd_flags⟩
  cases hv : env.validate text lang tld with
  | some err => simp [speak, gTTS, hv] at hok
  | none =>
    cases hf : env.fetch (GTTSReq.mk text lang tld) with
    | error e => simp [speak, gTTS, gttsSave, hv, hf] at hok
    | ok audio => simp [speak, gTTS, gttsSave, hv, hf, Event.isSpawn]

/-- Closed instance of C3 at a concrete successful environment. -/
theorem C3_witness :
    (speak envOk [] "hey" "en" "").2.2.filter Event.isSpawn =
      [Event.procSpawn FFPLAY_CMD (envOk.system FFPLAY_CMD)] ∧
    strContains FFPLAY_CMD "-v 0" ∧ strContains FFPLAY_CMD "-nodisp" ∧
    strContains FFPLAY_CMD "-autoexit" ∧ strContains FFPLAY_CMD OUTPUT_FILE :=
  C3_player_exactly_once_blocking envOk [] "hey" "en" "" rfl

/-- C4: for two successive invocations of `speak`, whatever the first one did,
a successful second invocation leaves the fixed output file holding exactly the
audio of the second call — overwrite semantics, not append. -/
theorem C4_second_call_overwrites (env : Env) (fs : FileSys)
    (t1 l1 d1 t2 l2 d2 : String) (audio2 : List Byte)
    (hv : env.validate t2 l2 d2 = none)
    (hf : env.fetch (GTTSReq.mk t2 l2 d2) = Except.ok audio2) :
    fsRead (speak env (speak env fs t1 l1 d1).2.1 t2 l2 d2).2.1 OUTPUT_FILE =
      some audio2 := by
  generalize (speak env fs t1 l1 d1).2.1 = fs1
  simp [speak, gTTS, gttsSave, hv, hf, fsRead_fsWrite]

/-- Closed instance of C4: after two concrete runs the file holds exactly the
second run's bytes. -/
theorem C4_witness :
    fsRead (speak envOk (speak envOk [] "a" "en" "").2.1 "b" "fr" "fr").2.1
      OUTPUT_FILE = some [7, 3, 9] :=
  C4_second_call_overwrites envOk [] "a" "en" "" "b" "fr" "fr" [7, 3, 9] rfl rfl

/-- C5 counterexample: with the player executable missing, `os.system` returns
the non-zero shell status `32512`, yet the program's exit code is `0` — not
what the underlying OS call returned — because line 7 of `speech.py` discards
the `os.system` return value. -/
theorem C5_counterexample_exit_not_os_status :
    envNoPlayer.system FFPLAY_CMD = 32512 ∧
    programExitCode envNoPlayer ["hello"] [] = 0 ∧
    programExitCode envNoPlayer ["hello"] [] ≠ envNoPlayer.system FFPLAY_CMD :=
  ⟨rfl, rfl, by decide⟩

/-- C5 amended: a failed playback OS call never surfaces — whenever synthesis
succeeds, `speak` returns normally and the program exits `0` whatever status
`os.system` returned (the status is recorded at the spawn and then discarded);
an uncaught library error makes Python exit `1`, again not the library's
return value. -/
theorem C5_amended_player_failure_ignored (env : Env) (line : String)
    (rest : List String) (fs : FileSys) :
    ((pythonMain env (line :: rest) fs).1 = Except.ok () →
      programExitCode env (line :: rest) fs = 0) ∧
    (∀ e, (pythonMain env (line :: rest) fs).1 = Except.error e →
      programExitCode env (line :: rest) fs = 1) ∧
    (∀ audio, env.validate line "fr" "fr" = none →
      env.fetch (GTTSReq.mk line "fr" "fr") = Except.ok audio →
      programExitCode env (line :: rest) fs = 0 ∧
      Event.procSpawn FFPLAY_CMD (env.system FFPLAY_CMD) ∈
        (pythonMain env (line :: rest) fs).2.2.1) := by
  refine ⟨?_, ?_, ?_⟩
  · intro h; simp [programExitCode, h]
  · intro e h; simp [programExitCode, h]
  · intro audio hv hf
    constructor
    · simp [programExitCode, pythonMain, speak, gTTS, gttsSave, hv, hf]
    · simp [pythonMain, speak, gTTS, gttsSave, hv, hf]

/-- Closed instance of the amended C5: the player is missing (`os.system`
returns 32512), yet the run spawns the player, ignores the status and the
program exits `0`. -/
theorem C5_amended_witness :
    programExitCode envNoPlayer ["bonjour"] [] = 0 ∧
    Event.procSpawn FFPLAY_CMD (envNoPlayer.system FFPLAY_CMD) ∈
      (pythonMain envNoPlayer ["bonjour"] []).2.2.1 :=
  (C5_amended_player_failure_ignored envNoPlayer "bonjour" [] []).2.2
    [7, 3, 9] rfl rfl

/-- C6: run directly, the program reads exactly one line from stdin (the rest
is left unread) and calls `speak` with hard-coded language "fr" and domain
"fr", while `speak` itself defaults to language "en" and an empty domain when
those arguments are omitted. -/
theorem C6_main_fr_defaults_en (env : Env) (line : String)
    (rest : List String) (fs : FileSys) :
    pythonMain env (line :: rest) fs =
      ((speak env fs line "fr" "fr").1, (speak env fs line "fr" "fr").2.1,
       (speak env fs line "fr" "fr").2.2, rest) ∧
    (∀ text, speak env fs text = speak env fs text "en" "") :=
  ⟨rfl, fun _ => rfl⟩

/-- C7: the concrete scenario text "hello", language "en", empty domain: when
the service answers with (non-empty) audio, `speak` writes exactly those bytes
to the fixed path and then spawns the player with the fixed command carrying
the three suppression/auto-exit flags and the file path. -/
theorem C7_hello_en_scenario (env : Env) (fs : FileSys) (audio : List Byte)
    (hv : env.validate "hello" "en" "" = none)
    (hf : env.fetch (GTTSReq.mk "hello" "en" "") = Except.ok audio)
    (hne : audio ≠ []) :
    fsRead (speak env fs "hello" "en" "").2.1 OUTPUT_FILE = some audio ∧
    audio ≠ [] ∧
    (speak env fs "hello" "en" "").2.2 =
      [Event.fileWrite OUTPUT_FILE audio,
       Event.procSpawn FFPLAY_CMD (env.system FFPLAY_CMD)] ∧
    strContains FFPLAY_CMD "-v 0" ∧ strContains FFPLAY_CMD "-nodisp" ∧
    strContains FFPLAY_CMD "-autoexit" ∧ strContains FFPLAY_CMD OUTPUT_FILE := by
  refine ⟨?_, hne, ?_, ffplay_cmd_flags⟩ <;>
    simp [speak, gTTS, gttsSave, hv, hf, fsRead_fsWrite]

/-- Closed instance of C7 at a concrete successful environment. -/
theorem C7_witness :
    fsRead (speak envOk [] "hello" "en" "").2.1 OUTPUT_FILE = some [7, 3, 9] ∧
    ([7, 3, 9] : List Byte) ≠ [] ∧
    (speak envOk [] "hello" "en" "").2.2 =
      [Event.fileWrite OUTPUT_FILE [7, 3, 9],
       Event.procSpawn FFPLAY_CMD (envOk.system FFPLAY_CMD)] ∧
    strContains FFPLAY_CMD "-v 0" ∧ strContains FFPLAY_CMD "-nodisp" ∧
    strContains FFPLAY_CMD "-autoexit" ∧ strContains FFPLAY_CMD OUTPUT_FILE :=
  C7_hello_en_scenario envOk [] [7, 3, 9] rfl rfl (by decide)

/-- C8: when the gTTS constructor raises (e.g. unsupported language code),
`speak` propagates exactly that error to the caller, the file system is left
untouched (in particular no empty output file is silently written), and no
event occurs: nothing is caught, retried or locally recovered. -/
theorem C8_unsupported_lang_propagates (env : Env) (fs : FileSys)
    (text lang tld err : String)
    (hbad : env.validate text lang tld = some err) :
    (speak env fs text lang tld).1 = Except.error err ∧
    (speak env fs text lang tld).2.1 = fs ∧
    (speak env fs text lang tld).2.2 = [] := by
  refine ⟨?_, ?_, ?_⟩ <;> simp [speak, gTTS, hbad]

/-- Closed instance of C8: an unsupported language propagates the library's
error and leaves a pre-existing output file exactly as it was. -/
theorem C8_witness :
    (speak envBadLang [(OUTPUT_FILE, [1, 2])] "hi" "xx" "").1 =
      Except.error "ValueError: Language not supported: xx" ∧
    (speak envBadLang [(OUTPUT_FILE, [1, 2])] "hi" "xx" "").2.1 =
      [(OUTPUT_FILE, [1, 2])] ∧
    (speak envBadLang [(OUTPUT_FILE, [1, 2])] "hi" "xx" "").2.2 = [] :=
  C8_unsupported_lang_propagates envBadLang [(OUTPUT_FILE, [1, 2])] "hi" "xx" ""
    "ValueError: Language not supported: xx" rfl

/-- Any spawned command in any run of `speak` is the fixed ffplay command. -/
theorem spawn_cmd_eq (env : Env) (fs : FileSys) (t l d c : String) (s : Nat)
    (h : Event.procSpawn c s ∈ (speak env fs t l d).2.2) : c = FFPLAY_CMD := by
  cases hv : env.validate t l d with
  | some err => simp [speak, gTTS, hv] at h
  | none =>
    cases hf : env.fetch (GTTSReq.mk t l d) with
    | error e => simp [speak, gTTS, gttsSave, hv, hf] at h
    | ok audio =>
      simp [speak, gTTS, gttsSave, hv, hf] at h
      exact h.1

/-- C9: the shell command used for playback is the same fixed constant in any
two invocations, whatever the text, language, domain, file system or
environment — no user-supplied data is interpolated into the shell command. -/
theorem C9_playback_command_fixed (env1 env2 : Env) (fs1 fs2 : FileSys)
    (t1 l1 d1 t2 l2 d2 c1 c2 : String) (s1 s2 : Nat)
    (h1 : Event.procSpawn c1 s1 ∈ (speak env1 fs1 t1 l1 d1).2.2)
    (h2 : Event.procSpawn c2 s2 ∈ (speak env2 fs2 t2 l2 d2).2.2) :
    c1 = FFPLAY_CMD ∧ c2 = FFPLAY_CMD ∧ c1 = c2 := by
  have e1 := spawn_cmd_eq env1 fs1 t1 l1 d1 c1 s1 h1
  have e2 := spawn_cmd_eq env2 fs2 t2 l2 d2 c2 s2 h2
  exact ⟨e1, e2, e1.trans e2.symm⟩

/-- Closed instance of C9: two concrete runs with different texts, languages,
domains and environments spawn the same fixed command. -/
theorem C9_witness :
    FFPLAY_CMD = FFPLAY_CMD ∧ FFPLAY_CMD = FFPLAY_CMD ∧ FFPLAY_CMD = FFPLAY_CMD :=
  C9_playback_command_fixed envOk envNoPlayer [] [] "a" "en" "" "b" "fr" "fr"
    FFPLAY_CMD FFPLAY_CMD 0 32512 (by decide) (by decide)

/-- C10: if constructing the request or saving the audio raises, `speak`
produces no event at all — in particular it never spawns the player — and on
a constructor failure the file system, hence the fixed output file, is exactly
what it was before the call. -/
theorem C10_no_spawn_on_error (env : Env) (fs : FileSys)
    (text lang tld : String) :
    (∀ e, (speak env fs text lang tld).1 = Except.error e →
      (speak env fs text lang tld).2.2 = []) ∧
    (∀ err, env.validate text lang tld = some err →
      (speak env fs text lang tld).2.1 = fs ∧
      fsRead (speak env fs text lang tld).2.1 OUTPUT_FILE = fsRead fs OUTPUT_FILE) := by
  constructor
  · intro e he
    cases hv : env.validate text lang tld with
    | some err => simp [speak, gTTS, hv]
    | none =>
      cases hf : env.fetch (GTTSReq.mk text lang tld) with
      | error e2 => simp [speak, gTTS, gttsSave, hv, hf]
      | ok audio => simp [speak, gTTS, gttsSave, hv, hf] at he
  · intro err hverr
    constructor <;> simp [speak, gTTS, hverr]

/-- Closed instance of C10: a constructor failure yields no events (no player
spawn) and leaves the pre-existing output file unchanged. -/
theorem C10_witness :
    (speak envBadLang [(OUTPUT_FILE, [9])] "t" "xx" "").2.2 = [] ∧
    (speak envBadLang [(OUTPUT_FILE, [9])] "t" "xx" "").2.1 = [(OUTPUT_FILE, [9])] :=
  ⟨(C10_no_spawn_on_error envBadLang [(OUTPUT_FILE, [9])] "t" "xx" "").1
      "ValueError: Language not supported: xx" rfl,
   ((C10_no_spawn_on_error envBadLang [(OUTPUT_FILE, [9])] "t" "xx" "").2
      "ValueError: Language not supported: xx" rfl).1⟩
